import Mathlib

/-!
Shallow embedding of the MyJDProxy core (MyJDownloader client wrapper).

Modelled source files:
  * `src/app/models/download_models.py` — `DownloadStatus`, `DownloadPackage`,
    `DownloadRequest`.
  * `src/app/core/myjd_client.py` — `MyJDClient`: `connect`, `disconnect`,
    `is_connected`, `_refresh_connection`, `add_download_package`,
    `_add_links_with_retry`, `get_download_packages`,
    `_query_packages_with_retry`, `_query_linkgrabber_with_retry`,
    `start_downloads`, `_start_downloads_with_retry`, `pause_downloads`,
    `_pause_downloads_with_retry`.

The remote service (the `myjdapi` library) is an external collaborator; its
behaviour is abstracted by explicit environment parameters:
  * `ConnectBehavior` — what `jd.connect` / `jd.get_device` do on this call;
  * `RefreshBehavior` — what `jd.reconnect` does inside `_refresh_connection`;
  * a call oracle `Nat → CallOutcome α` giving the outcome of the n-th
    underlying device call made by a retry wrapper (n counts the device
    invocations performed so far by that wrapper chain).
Each operation returns, besides its Python return value (or raised
exception, modelled with `Except`), the resulting client state and a `Nat`
counting the underlying remote invocations it performed, so that frame
properties ("no remote call happened") are expressible.
-/

namespace MyJDProxy

/-! ### Data model (`download_models.py`) -/

/-- `DownloadStatus` enumeration. -/
inductive DownloadStatus where
  | UNKNOWN
  | DOWNLOADING
  | FINISHED
  | FAILED
  | PAUSED
  | PENDING
  | EXTRACTING
  deriving DecidableEq, Repr

/-- The `status_map` dictionary inside `DownloadStatus.from_string`. -/
def status_map : List (String × DownloadStatus) :=
  [ ("downloading", DownloadStatus.DOWNLOADING)
  , ("finished", DownloadStatus.FINISHED)
  , ("failed", DownloadStatus.FAILED)
  , ("paused", DownloadStatus.PAUSED)
  , ("pending", DownloadStatus.PENDING)
  , ("extracting", DownloadStatus.EXTRACTING) ]

/-- Python `str.lower()` on the characters of the string (`Char.toLower`
lowers the Latin range, which covers the keys of `status_map`).  Defined by
structural recursion over the character list so that it evaluates. -/
def str_lower (s : String) : String :=
  String.mk (s.data.map Char.toLower)

/-- `DownloadStatus.from_string`: dictionary lookup on the lower-cased input,
with default `UNKNOWN` (Python `status_map.get(status_str.lower(), cls.UNKNOWN)`). -/
def DownloadStatus.from_string (status_str : String) : DownloadStatus :=
  (status_map.lookup (str_lower status_str)).getD DownloadStatus.UNKNOWN

/-- The `DownloadPackage` dataclass. Byte counts and speeds are Python ints. -/
structure DownloadPackage where
  name : String
  bytes_total : Int
  bytes_loaded : Int
  status : DownloadStatus
  package_id : String
  eta : Int := -1
  speed : Int := 0
  deriving DecidableEq, Repr

/-- `DownloadPackage.progress_percentage`: `(bytes_loaded / bytes_total) * 100`,
with the explicit zero guard; Python float division is modelled in `ℚ`. -/
def DownloadPackage.progress_percentage (p : DownloadPackage) : ℚ :=
  if p.bytes_total = 0 then 0
  else ((p.bytes_loaded : ℚ) / (p.bytes_total : ℚ)) * 100

/-- `DownloadPackage.is_completed`: status equals `FINISHED`. -/
def DownloadPackage.is_completed (p : DownloadPackage) : Bool :=
  p.status = DownloadStatus.FINISHED

/-- `DownloadPackage.is_downloading`: status equals `DOWNLOADING`. -/
def DownloadPackage.is_downloading (p : DownloadPackage) : Bool :=
  p.status = DownloadStatus.DOWNLOADING

/-- The `DownloadRequest` dataclass. -/
structure DownloadRequest where
  name : String
  links : List String
  category : String := "other"
  auto_start : Bool := true
  deriving DecidableEq, Repr

/-- Python `str.strip()`: drop whitespace from both ends.  Defined by
structural recursion over the character list so that it evaluates. -/
def str_strip (s : String) : String :=
  String.mk (((s.data.dropWhile Char.isWhitespace).reverse.dropWhile
    Char.isWhitespace).reverse)

/-- `DownloadRequest.validate`: name non-blank, links non-empty, category
allowed.  (`isinstance(self.links, list)` is always true here since links are
typed as a list.) -/
def DownloadRequest.validate (r : DownloadRequest) (allowed_categories : List String) : Bool :=
  if str_strip r.name = "" then false
  else if r.links.isEmpty then false
  else if r.category ∉ allowed_categories then false
  else true

/-! ### Client state and external-collaborator environments (`myjd_client.py`) -/

/-- Configuration fields of `Config` consumed by `MyJDClient`. -/
structure Config where
  myjd_username : String
  myjd_password : String
  myjd_deviceid : String
  base_path : String
  allowed_categories : List String
  deriving Repr

/-- The mutable state of a `MyJDClient`: the `_is_connected` flag and the
`device` handle (`None` or an abstract handle).  `self.jd` is assigned a
`Myjdapi()` object in `__init__` and never cleared, so the guard `if self.jd:`
in `disconnect` is always true and `jd` needs no state field. -/
structure ClientState where
  connected : Bool
  device : Option Nat
  deriving DecidableEq, Repr

/-- `is_connected`: `self._is_connected and self.device is not None`. -/
def is_connected (s : ClientState) : Bool :=
  s.connected && s.device.isSome

/-- Result of `connect()`: returned `True`, or raised `MyJDConnectionError`
carrying a message. -/
inductive ConnectResult where
  | ok
  | connError (msg : String)
  deriving DecidableEq, Repr

/-- Behaviour of the remote session collaborator during one `connect()` call:
`jd.connect` raises; `jd.connect` succeeds but `jd.get_device` raises;
`jd.get_device` returns a falsy device; or a device is found. -/
inductive ConnectBehavior where
  | connectRaises (msg : String)
  | deviceRaises (msg : String)
  | deviceNone
  | found (d : Nat)
  deriving DecidableEq, Repr

/-- `connect()`.  Returns the result, the new state and the number of
`jd.connect` authentication attempts performed (always 1: the method never
checks `is_connected` first).  On `jd.get_device` raising, the assignment to
`self.device` does not happen; when `get_device` returns a falsy value the
assignment did happen (device cleared) before the error is raised.  The
`_is_connected` flag is written only on success. -/
def connect (cfg : Config) (env : ConnectBehavior) (s : ClientState) :
    ConnectResult × ClientState × Nat :=
  match env with
  | ConnectBehavior.connectRaises m =>
      (ConnectResult.connError ("Connection failed: " ++ m), s, 1)
  | ConnectBehavior.deviceRaises m =>
      (ConnectResult.connError ("Connection failed: " ++ m), s, 1)
  | ConnectBehavior.deviceNone =>
      (ConnectResult.connError
        ("Connection failed: Device with ID " ++ cfg.myjd_deviceid ++ " not found"),
       { s with device := none }, 1)
  | ConnectBehavior.found d =>
      (ConnectResult.ok, { connected := true, device := some d }, 1)

/-- `disconnect()`.  The environment says whether `jd.disconnect` raises
(`some msg`) or succeeds (`none`).  Returns the new state and whether an
exception escaped the method — the bare `except Exception` swallows every
failure, so that flag is always `false`; but when the transport call raises,
the statement `self._is_connected = False` (which sits after the call inside
the `try` block) is skipped and the state is left unchanged. -/
def disconnect (transport : Option String) (s : ClientState) : ClientState × Bool :=
  match transport with
  | some _ => (s, false)
  | none => ({ s with connected := false }, false)

/-- Behaviour of the collaborator during `_refresh_connection`:
`jd.reconnect` succeeds, or it raises and the method falls back to a full
`connect()` whose behaviour is `cb`. -/
inductive RefreshBehavior where
  | reconnectOk
  | reconnectRaises (msg : String) (cb : ConnectBehavior)
  deriving Repr

/-- `_refresh_connection()`: try `jd.reconnect`; on failure fall back to
`self.connect()`, returning `False` (never raising) if that also fails.
Returns the flag, the new state and the `jd.connect` attempts performed. -/
def refresh_connection (cfg : Config) (env : RefreshBehavior) (s : ClientState) :
    Bool × ClientState × Nat :=
  match env with
  | RefreshBehavior.reconnectOk => (true, s, 0)
  | RefreshBehavior.reconnectRaises _ cb =>
      match connect cfg cb s with
      | (ConnectResult.ok, s', n) => (true, s', n)
      | (ConnectResult.connError _, s', n) => (false, s', n)

/-! ### Retry wrappers

Each `_..._with_retry` method calls the device once and, on
`MYJDTokenInvalidException` with `retry_count == 0`, refreshes the connection
and recurses with `retry_count = 1`.  Here the counter is carried as
`retries_left = 1 - retry_count`, so the recursion is structural: the
callers' `retry_count = 0` is `retries_left = 1`, and the recursive call's
`retry_count = 1` is `retries_left = 0`. -/

/-- Outcome of one underlying device call: a normal return, a
`MYJDTokenInvalidException`, or any other exception. -/
inductive CallOutcome (α : Type) where
  | ok (a : α)
  | tokenInvalid (msg : String)
  | raised (msg : String)
  deriving DecidableEq, Repr

/-- Outcome of a retry wrapper: a normal return, a raised
`MyJDOperationError`, or another exception propagated unhandled. -/
inductive OpOutcome (α : Type) where
  | ok (a : α)
  | opError (msg : String)
  | raised (msg : String)
  deriving DecidableEq, Repr

/-- The package dictionary built by `add_download_package` and handed to
`device.linkgrabber.add_links`. -/
structure LinkPackage where
  packageName : String
  links : String
  destinationFolder : String
  autostart : String
  deriving DecidableEq, Repr

/-- `_add_links_with_retry(package, retry_count)`.  `call n` is the outcome of
the wrapper's (n+1)-th device invocation; `ncalls` counts invocations made so
far and the returned `Nat` is the total. -/
def add_links_with_retry (cfg : Config) (package : LinkPackage)
    (call : Nat → CallOutcome Unit) (renv : RefreshBehavior) :
    ClientState → Nat → Nat → OpOutcome Unit × ClientState × Nat
  | s, ncalls, retries_left =>
    match call ncalls with
    | CallOutcome.ok a => (OpOutcome.ok a, s, ncalls + 1)
    | CallOutcome.raised m => (OpOutcome.raised m, s, ncalls + 1)
    | CallOutcome.tokenInvalid m =>
      match retries_left with
      | left + 1 =>
        match refresh_connection cfg renv s with
        | (true, s', _) => add_links_with_retry cfg package call renv s' (ncalls + 1) left
        | (false, s', _) =>
            (OpOutcome.opError "Failed to refresh connection after token expiration",
             s', ncalls + 1)
      | 0 =>
          (OpOutcome.opError ("Token invalid even after reconnection: " ++ m),
           s, ncalls + 1)

/-- `_query_packages_with_retry(retry_count)`: same retry scheme, returning
the queried package dictionaries. -/
def query_packages_with_retry (cfg : Config) {α : Type}
    (call : Nat → CallOutcome α) (renv : RefreshBehavior) :
    ClientState → Nat → Nat → OpOutcome α × ClientState × Nat
  | s, ncalls, retries_left =>
    match call ncalls with
    | CallOutcome.ok a => (OpOutcome.ok a, s, ncalls + 1)
    | CallOutcome.raised m => (OpOutcome.raised m, s, ncalls + 1)
    | CallOutcome.tokenInvalid m =>
      match retries_left with
      | left + 1 =>
        match refresh_connection cfg renv s with
        | (true, s', _) => query_packages_with_retry cfg call renv s' (ncalls + 1) left
        | (false, s', _) =>
            (OpOutcome.opError "Failed to refresh connection after token expiration",
             s', ncalls + 1)
      | 0 =>
          (OpOutcome.opError ("Token invalid even after reconnection: " ++ m),
           s, ncalls + 1)

/-- `_query_linkgrabber_with_retry(retry_count)`: textually the same retry
scheme as `_query_packages_with_retry`, querying the linkgrabber instead. -/
def query_linkgrabber_with_retry (cfg : Config) {α : Type}
    (call : Nat → CallOutcome α) (renv : RefreshBehavior) :
    ClientState → Nat → Nat → OpOutcome α × ClientState × Nat
  | s, ncalls, retries_left =>
    match call ncalls with
    | CallOutcome.ok a => (OpOutcome.ok a, s, ncalls + 1)
    | CallOutcome.raised m => (OpOutcome.raised m, s, ncalls + 1)
    | CallOutcome.tokenInvalid m =>
      match retries_left with
      | left + 1 =>
        match refresh_connection cfg renv s with
        | (true, s', _) => query_linkgrabber_with_retry cfg call renv s' (ncalls + 1) left
        | (false, s', _) =>
            (OpOutcome.opError "Failed to refresh connection after token expiration",
             s', ncalls + 1)
      | 0 =>
          (OpOutcome.opError ("Token invalid even after reconnection: " ++ m),
           s, ncalls + 1)

/-- `_start_downloads_with_retry(package_ids, retry_count)`.  A truthy
`package_ids` (present and non-empty) only logs the intent — no device call;
otherwise `device.downloadcontroller.start_downloads()` is invoked under the
same retry scheme. -/
def start_downloads_with_retry (cfg : Config) (package_ids : Option (List String))
    (call : Nat → CallOutcome Unit) (renv : RefreshBehavior) :
    ClientState → Nat → Nat → OpOutcome Unit × ClientState × Nat
  | s, ncalls, retries_left =>
    match package_ids with
    | some (_ :: _) => (OpOutcome.ok (), s, ncalls)
    | _ =>
      match call ncalls with
      | CallOutcome.ok a => (OpOutcome.ok a, s, ncalls + 1)
      | CallOutcome.raised m => (OpOutcome.raised m, s, ncalls + 1)
      | CallOutcome.tokenInvalid m =>
        match retries_left with
        | left + 1 =>
          match refresh_connection cfg renv s with
          | (true, s', _) =>
              start_downloads_with_retry cfg package_ids call renv s' (ncalls + 1) left
          | (false, s', _) =>
              (OpOutcome.opError "Failed to refresh connection after token expiration",
               s', ncalls + 1)
        | 0 =>
            (OpOutcome.opError ("Token invalid even after reconnection: " ++ m),
             s, ncalls + 1)

/-- `_pause_downloads_with_retry(package_ids, retry_count)`: same shape as
`_start_downloads_with_retry`, pausing instead of starting. -/
def pause_downloads_with_retry (cfg : Config) (package_ids : Option (List String))
    (call : Nat → CallOutcome Unit) (renv : RefreshBehavior) :
    ClientState → Nat → Nat → OpOutcome Unit × ClientState × Nat
  | s, ncalls, retries_left =>
    match package_ids with
    | some (_ :: _) => (OpOutcome.ok (), s, ncalls)
    | _ =>
      match call ncalls with
      | CallOutcome.ok a => (OpOutcome.ok a, s, ncalls + 1)
      | CallOutcome.raised m => (OpOutcome.raised m, s, ncalls + 1)
      | CallOutcome.tokenInvalid m =>
        match retries_left with
        | left + 1 =>
          match refresh_connection cfg renv s with
          | (true, s', _) =>
              pause_downloads_with_retry cfg package_ids call renv s' (ncalls + 1) left
          | (false, s', _) =>
              (OpOutcome.opError "Failed to refresh connection after token expiration",
               s', ncalls + 1)
        | 0 =>
            (OpOutcome.opError ("Token invalid even after reconnection: " ++ m),
             s, ncalls + 1)

/-! ### Public domain operations -/

/-- The two caller-visible exception kinds of the core
(`MyJDConnectionError`, `MyJDOperationError`). -/
inductive AppError where
  | connError (msg : String)
  | opError (msg : String)
  deriving DecidableEq, Repr

/-- The result dictionary of `add_download_package`. -/
structure AddResult where
  success : Bool
  message : String
  deriving DecidableEq, Repr

/-- `add_download_package(name, download_links, category, auto_start)`.
Lazy-connects when not connected (a `MyJDConnectionError` there becomes a
soft-failure result); then checks connectivity, non-empty links and allowed
category in that order, each a soft failure; otherwise builds the package
payload and submits it through `_add_links_with_retry`, whose failure is
re-raised as `MyJDOperationError`.  The `Nat` counts device `add_links`
invocations. -/
def add_download_package (cfg : Config) (cenv : ConnectBehavior)
    (call : Nat → CallOutcome Unit) (renv : RefreshBehavior) (s : ClientState)
    (name : String) (download_links : List String) (category : String)
    (auto_start : Bool) : Except AppError AddResult × ClientState × Nat :=
  let step :=
    if is_connected s then (ConnectResult.ok, s)
    else ((connect cfg cenv s).1, (connect cfg cenv s).2.1)
  match step with
  | (ConnectResult.connError m, s') =>
      (Except.ok { success := false, message := "Connection error: " ++ m }, s', 0)
  | (ConnectResult.ok, s') =>
    if !(is_connected s') then
      (Except.ok { success := false, message := "Not connected to MyJDownloader" }, s', 0)
    else if download_links.isEmpty then
      (Except.ok { success := false, message := "No download links provided" }, s', 0)
    else if category ∉ cfg.allowed_categories then
      (Except.ok { success := false, message := "Invalid category" }, s', 0)
    else
      let destination_folder := cfg.base_path ++ "/" ++ category
      let package : LinkPackage :=
        { packageName := name
        , links := String.intercalate "\n" download_links
        , destinationFolder := destination_folder
        , autostart := if auto_start then "true" else "false" }
      match add_links_with_retry cfg package call renv s' 0 1 with
      | (OpOutcome.ok _, s2, n) =>
          (Except.ok
            { success := true
            , message := "Package '" ++ name ++ "' added successfully" }, s2, n)
      | (OpOutcome.opError m, s2, n) =>
          (Except.error (AppError.opError ("Failed to add package: " ++ m)), s2, n)
      | (OpOutcome.raised m, s2, n) =>
          (Except.error (AppError.opError ("Failed to add package: " ++ m)), s2, n)

/-- A raw package record returned by the device query (a Python dict read
with `.get` and per-key defaults). -/
structure RawPackage where
  name : Option String := none
  bytesTotal : Option Int := none
  bytesLoaded : Option Int := none
  status : Option String := none
  uuid : Option String := none
  eta : Option Int := none
  speed : Option Int := none
  deriving DecidableEq, Repr

/-- The loop body of `get_download_packages`: one raw record to one
`DownloadPackage`, with the source's `.get` defaults. -/
def toDownloadPackage (pkg : RawPackage) : DownloadPackage :=
  { name := pkg.name.getD "Unknown"
  , bytes_total := pkg.bytesTotal.getD 0
  , bytes_loaded := pkg.bytesLoaded.getD 0
  , status := DownloadStatus.from_string (pkg.status.getD "unknown")
  , package_id := pkg.uuid.getD ""
  , eta := pkg.eta.getD (-1)
  , speed := pkg.speed.getD 0 }

/-- `get_download_packages()`: requires an active connection (raises
`MyJDConnectionError` otherwise, no lazy reconnect), queries through
`_query_packages_with_retry` and rebuilds every package; any failure is
re-raised as `MyJDOperationError`. -/
def get_download_packages (cfg : Config) (call : Nat → CallOutcome (List RawPackage))
    (renv : RefreshBehavior) (s : ClientState) :
    Except AppError (List DownloadPackage) × ClientState × Nat :=
  if !(is_connected s) then
    (Except.error (AppError.connError "Not connected to MyJDownloader"), s, 0)
  else
    match query_packages_with_retry cfg call renv s 0 1 with
    | (OpOutcome.ok pkgs, s', n) => (Except.ok (pkgs.map toDownloadPackage), s', n)
    | (OpOutcome.opError m, s', n) =>
        (Except.error (AppError.opError ("Failed to get packages: " ++ m)), s', n)
    | (OpOutcome.raised m, s', n) =>
        (Except.error (AppError.opError ("Failed to get packages: " ++ m)), s', n)

/-- `get_linkgrabber_packages()`: same connectivity precondition and error
wrapping, returning the raw records. -/
def get_linkgrabber_packages (cfg : Config) (call : Nat → CallOutcome (List RawPackage))
    (renv : RefreshBehavior) (s : ClientState) :
    Except AppError (List RawPackage) × ClientState × Nat :=
  if !(is_connected s) then
    (Except.error (AppError.connError "Not connected to MyJDownloader"), s, 0)
  else
    match query_linkgrabber_with_retry cfg call renv s 0 1 with
    | (OpOutcome.ok pkgs, s', n) => (Except.ok pkgs, s', n)
    | (OpOutcome.opError m, s', n) =>
        (Except.error (AppError.opError ("Failed to get linkgrabber packages: " ++ m)), s', n)
    | (OpOutcome.raised m, s', n) =>
        (Except.error (AppError.opError ("Failed to get linkgrabber packages: " ++ m)), s', n)

/-- `start_downloads(package_ids)`: requires an active connection; returns
`True` when `_start_downloads_with_retry` does not raise, else re-raises as
`MyJDOperationError`. -/
def start_downloads (cfg : Config) (package_ids : Option (List String))
    (call : Nat → CallOutcome Unit) (renv : RefreshBehavior) (s : ClientState) :
    Except AppError Bool × ClientState × Nat :=
  if !(is_connected s) then
    (Except.error (AppError.connError "Not connected to MyJDownloader"), s, 0)
  else
    match start_downloads_with_retry cfg package_ids call renv s 0 1 with
    | (OpOutcome.ok _, s', n) => (Except.ok true, s', n)
    | (OpOutcome.opError m, s', n) =>
        (Except.error (AppError.opError ("Failed to start downloads: " ++ m)), s', n)
    | (OpOutcome.raised m, s', n) =>
        (Except.error (AppError.opError ("Failed to start downloads: " ++ m)), s', n)

/-- `pause_downloads(package_ids)`: mirror image of `start_downloads`. -/
def pause_downloads (cfg : Config) (package_ids : Option (List String))
    (call : Nat → CallOutcome Unit) (renv : RefreshBehavior) (s : ClientState) :
    Except AppError Bool × ClientState × Nat :=
  if !(is_connected s) then
    (Except.error (AppError.connError "Not connected to MyJDownloader"), s, 0)
  else
    match pause_downloads_with_retry cfg package_ids call renv s 0 1 with
    | (OpOutcome.ok _, s', n) => (Except.ok true, s', n)
    | (OpOutcome.opError m, s', n) =>
        (Except.error (AppError.opError ("Failed to pause downloads: " ++ m)), s', n)
    | (OpOutcome.raised m, s', n) =>
        (Except.error (AppError.opError ("Failed to pause downloads: " ++ m)), s', n)

/-! ### Concrete fixtures used by witnesses and counterexamples -/

/-- A small concrete configuration. -/
def cfg0 : Config :=
  { myjd_username := "user"
  , myjd_password := "pass"
  , myjd_deviceid := "dev-1"
  , base_path := "/downloads"
  , allowed_categories := ["tv_show", "movie"] }

/-- A connected client state. -/
def s1 : ClientState := { connected := true, device := some 0 }

/-- A disconnected client state. -/
def s0 : ClientState := { connected := false, device := none }

/-- A concrete link package payload. -/
def pkg0 : LinkPackage :=
  { packageName := "p"
  , links := "http://example.com/a"
  , destinationFolder := "/downloads/movie"
  , autostart := "true" }

/-- A raw record as in the spec's test vector: bytesTotal 1000, bytesLoaded
250, status "downloading". -/
def raw1 : RawPackage :=
  { bytesTotal := some 1000, bytesLoaded := some 250, status := some "downloading" }

/-- A raw record with bytesTotal 0. -/
def raw0 : RawPackage :=
  { bytesTotal := some 0, bytesLoaded := some 0, status := some "downloading" }

/-- A `ConnectBehavior` fails authentication when it is not `found`:
`jd.connect` raised, or the device lookup raised or returned no device. -/
def ConnectBehavior.fails : ConnectBehavior → Bool
  | ConnectBehavior.found _ => false
  | _ => true

/-! ### Helper lemmas about the retry wrappers -/

/-- If every device call raises token-invalid, `_add_links_with_retry`
raises `MyJDOperationError` after at most two device invocations. -/
lemma add_links_retry_all_invalid (cfg : Config) (package : LinkPackage)
    (call : Nat → CallOutcome Unit) (renv : RefreshBehavior) (s : ClientState)
    (h : ∀ n, ∃ m, call n = CallOutcome.tokenInvalid m) :
    (∃ m, (add_links_with_retry cfg package call renv s 0 1).1 = OpOutcome.opError m) ∧
    (add_links_with_retry cfg package call renv s 0 1).2.2 ≤ 2 := by
  obtain ⟨m0, h0⟩ := h 0
  obtain ⟨m1, h1⟩ := h 1
  rcases hr : refresh_connection cfg renv s with ⟨b, s', k⟩
  cases b
  · simp [add_links_with_retry, h0, h1, hr]
  · simp [add_links_with_retry, h0, h1, hr]

/-- If the first device call raises token-invalid, the refresh succeeds and
the second call succeeds, `_add_links_with_retry` returns that success
transparently, having made exactly two device invocations. -/
lemma add_links_retry_recovers (cfg : Config) (package : LinkPackage)
    (call : Nat → CallOutcome Unit) (renv : RefreshBehavior) (s : ClientState)
    (m : String) (a : Unit)
    (h0 : call 0 = CallOutcome.tokenInvalid m) (h1 : call 1 = CallOutcome.ok a)
    (hr : (refresh_connection cfg renv s).1 = true) :
    add_links_with_retry cfg package call renv s 0 1
      = (OpOutcome.ok a, (refresh_connection cfg renv s).2.1, 2) := by
  rcases hrr : refresh_connection cfg renv s with ⟨b, s', k⟩
  rw [hrr] at hr
  simp at hr
  subst hr
  simp [add_links_with_retry, h0, h1, hrr]

/-- Retry bound for `_query_packages_with_retry`. -/
lemma query_packages_retry_all_invalid (cfg : Config) {α : Type}
    (call : Nat → CallOutcome α) (renv : RefreshBehavior) (s : ClientState)
    (h : ∀ n, ∃ m, call n = CallOutcome.tokenInvalid m) :
    (∃ m, (query_packages_with_retry cfg call renv s 0 1).1 = OpOutcome.opError m) ∧
    (query_packages_with_retry cfg call renv s 0 1).2.2 ≤ 2 := by
  obtain ⟨m0, h0⟩ := h 0
  obtain ⟨m1, h1⟩ := h 1
  rcases hr : refresh_connection cfg renv s with ⟨b, s', k⟩
  cases b
  · simp [query_packages_with_retry, h0, h1, hr]
  · simp [query_packages_with_retry, h0, h1, hr]

/-- Transparent recovery for `_query_packages_with_retry`. -/
lemma query_packages_retry_recovers (cfg : Config) {α : Type}
    (call : Nat → CallOutcome α) (renv : RefreshBehavior) (s : ClientState)
    (m : String) (a : α)
    (h0 : call 0 = CallOutcome.tokenInvalid m) (h1 : call 1 = CallOutcome.ok a)
    (hr : (refresh_connection cfg renv s).1 = true) :
    query_packages_with_retry cfg call renv s 0 1
      = (OpOutcome.ok a, (refresh_connection cfg renv s).2.1, 2) := by
  rcases hrr : refresh_connection cfg renv s with ⟨b, s', k⟩
  rw [hrr] at hr
  simp at hr
  subst hr
  simp [query_packages_with_retry, h0, h1, hrr]

/-- Retry bound for `_query_linkgrabber_with_retry`. -/
lemma query_linkgrabber_retry_all_invalid (cfg : Config) {α : Type}
    (call : Nat → CallOutcome α) (renv : RefreshBehavior) (s : ClientState)
    (h : ∀ n, ∃ m, call n = CallOutcome.tokenInvalid m) :
    (∃ m, (query_linkgrabber_with_retry cfg call renv s 0 1).1 = OpOutcome.opError m) ∧
    (query_linkgrabber_with_retry cfg call renv s 0 1).2.2 ≤ 2 := by
  obtain ⟨m0, h0⟩ := h 0
  obtain ⟨m1, h1⟩ := h 1
  rcases hr : refresh_connection cfg renv s with ⟨b, s', k⟩
  cases b
  · simp [query_linkgrabber_with_retry, h0, h1, hr]
  · simp [query_linkgrabber_with_retry, h0, h1, hr]

/-- Transparent recovery for `_query_linkgrabber_with_retry`. -/
lemma query_linkgrabber_retry_recovers (cfg : Config) {α : Type}
    (call : Nat → CallOutcome α) (renv : RefreshBehavior) (s : ClientState)
    (m : String) (a : α)
    (h0 : call 0 = CallOutcome.tokenInvalid m) (h1 : call 1 = CallOutcome.ok a)
    (hr : (refresh_connection cfg renv s).1 = true) :
    query_linkgrabber_with_retry cfg call renv s 0 1
      = (OpOutcome.ok a, (refresh_connection cfg renv s).2.1, 2) := by
  rcases hrr : refresh_connection cfg renv s with ⟨b, s', k⟩
  rw [hrr] at hr
  simp at hr
  subst hr
  simp [query_linkgrabber_with_retry, h0, h1, hrr]

/-- Retry bound for `_start_downloads_with_retry` on the start-all branch. -/
lemma start_retry_all_invalid (cfg : Config)
    (call : Nat → CallOutcome Unit) (renv : RefreshBehavior) (s : ClientState)
    (h : ∀ n, ∃ m, call n = CallOutcome.tokenInvalid m) :
    (∃ m, (start_downloads_with_retry cfg none call renv s 0 1).1 = OpOutcome.opError m) ∧
    (start_downloads_with_retry cfg none call renv s 0 1).2.2 ≤ 2 := by
  obtain ⟨m0, h0⟩ := h 0
  obtain ⟨m1, h1⟩ := h 1
  rcases hr : refresh_connection cfg renv s with ⟨b, s', k⟩
  cases b
  · simp [start_downloads_with_retry, h0, h1, hr]
  · simp [start_downloads_with_retry, h0, h1, hr]

/-- Transparent recovery for `_start_downloads_with_retry` on the start-all
branch. -/
lemma start_retry_recovers (cfg : Config)
    (call : Nat → CallOutcome Unit) (renv : RefreshBehavior) (s : ClientState)
    (m : String) (a : Unit)
    (h0 : call 0 = CallOutcome.tokenInvalid m) (h1 : call 1 = CallOutcome.ok a)
    (hr : (refresh_connection cfg renv s).1 = true) :
    start_downloads_with_retry cfg none call renv s 0 1
      = (OpOutcome.ok a, (refresh_connection cfg renv s).2.1, 2) := by
  rcases hrr : refresh_connection cfg renv s with ⟨b, s', k⟩
  rw [hrr] at hr
  simp at hr
  subst hr
  simp [start_downloads_with_retry, h0, h1, hrr]

/-- Retry bound for `_pause_downloads_with_retry` on the pause-all branch. -/
lemma pause_retry_all_invalid (cfg : Config)
    (call : Nat → CallOutcome Unit) (renv : RefreshBehavior) (s : ClientState)
    (h : ∀ n, ∃ m, call n = CallOutcome.tokenInvalid m) :
    (∃ m, (pause_downloads_with_retry cfg none call renv s 0 1).1 = OpOutcome.opError m) ∧
    (pause_downloads_with_retry cfg none call renv s 0 1).2.2 ≤ 2 := by
  obtain ⟨m0, h0⟩ := h 0
  obtain ⟨m1, h1⟩ := h 1
  rcases hr : refresh_connection cfg renv s with ⟨b, s', k⟩
  cases b
  · simp [pause_downloads_with_retry, h0, h1, hr]
  · simp [pause_downloads_with_retry, h0, h1, hr]

/-- Transparent recovery for `_pause_downloads_with_retry` on the pause-all
branch. -/
lemma pause_retry_recovers (cfg : Config)
    (call : Nat → CallOutcome Unit) (renv : RefreshBehavior) (s : ClientState)
    (m : String) (a : Unit)
    (h0 : call 0 = CallOutcome.tokenInvalid m) (h1 : call 1 = CallOutcome.ok a)
    (hr : (refresh_connection cfg renv s).1 = true) :
    pause_downloads_with_retry cfg none call renv s 0 1
      = (OpOutcome.ok a, (refresh_connection cfg renv s).2.1, 2) := by
  rcases hrr : refresh_connection cfg renv s with ⟨b, s', k⟩
  rw [hrr] at hr
  simp at hr
  subst hr
  simp [pause_downloads_with_retry, h0, h1, hrr]

/-- On the start-all branch the device is invoked at least once. -/
lemma start_retry_calls_device (cfg : Config) (ids : Option (List String))
    (call : Nat → CallOutcome Unit) (renv : RefreshBehavior) (s : ClientState)
    (hids : ids = none ∨ ids = some []) :
    1 ≤ (start_downloads_with_retry cfg ids call renv s 0 1).2.2 := by
  have main : ∀ ids', ids' = none ∨ ids' = some ([] : List String) →
      1 ≤ (start_downloads_with_retry cfg ids' call renv s 0 1).2.2 := by
    intro ids' h'
    cases hc0 : call 0 with
    | ok a => rcases h' with h' | h' <;> subst h' <;>
        simp [start_downloads_with_retry, hc0]
    | raised m => rcases h' with h' | h' <;> subst h' <;>
        simp [start_downloads_with_retry, hc0]
    | tokenInvalid m =>
      rcases hr : refresh_connection cfg renv s with ⟨b, s', k⟩
      cases b
      · rcases h' with h' | h' <;> subst h' <;>
          simp [start_downloads_with_retry, hc0, hr]
      · cases hc1 : call 1 <;> rcases h' with h' | h' <;> subst h' <;>
          simp [start_downloads_with_retry, hc0, hc1, hr]
  exact main ids hids

/-- On the pause-all branch the device is invoked at least once. -/
lemma pause_retry_calls_device (cfg : Config) (ids : Option (List String))
    (call : Nat → CallOutcome Unit) (renv : RefreshBehavior) (s : ClientState)
    (hids : ids = none ∨ ids = some []) :
    1 ≤ (pause_downloads_with_retry cfg ids call renv s 0 1).2.2 := by
  have main : ∀ ids', ids' = none ∨ ids' = some ([] : List String) →
      1 ≤ (pause_downloads_with_retry cfg ids' call renv s 0 1).2.2 := by
    intro ids' h'
    cases hc0 : call 0 with
    | ok a => rcases h' with h' | h' <;> subst h' <;>
        simp [pause_downloads_with_retry, hc0]
    | raised m => rcases h' with h' | h' <;> subst h' <;>
        simp [pause_downloads_with_retry, hc0]
    | tokenInvalid m =>
      rcases hr : refresh_connection cfg renv s with ⟨b, s', k⟩
      cases b
      · rcases h' with h' | h' <;> subst h' <;>
          simp [pause_downloads_with_retry, hc0, hr]
      · cases hc1 : call 1 <;> rcases h' with h' | h' <;> subst h' <;>
          simp [pause_downloads_with_retry, hc0, hc1, hr]
  exact main ids hids

/-! ### Claim theorems -/

/-- C1: for every wrapped remote operation (add links, query download
packages, query linkgrabber packages, start downloads, pause downloads),
if the underlying call raises token-invalid on every attempt the retry
wrapper invokes it at most 2 times total and then raises
`MyJDOperationError`; if the call raises token-invalid once and is then
retried successfully after a successful refresh, the wrapper returns the
successful result transparently. -/
theorem retry_executor_bound_and_transparency
    (cfg : Config) (package : LinkPackage) (renv : RefreshBehavior) (s : ClientState)
    (cA cS cP dA dS dP : Nat → CallOutcome Unit)
    (cQ cL dQ dL : Nat → CallOutcome (List RawPackage))
    (mA mQ mL mS mP : String) (rQ rL : List RawPackage)
    (hA : ∀ n, ∃ m, cA n = CallOutcome.tokenInvalid m)
    (hQ : ∀ n, ∃ m, cQ n = CallOutcome.tokenInvalid m)
    (hL : ∀ n, ∃ m, cL n = CallOutcome.tokenInvalid m)
    (hS : ∀ n, ∃ m, cS n = CallOutcome.tokenInvalid m)
    (hP : ∀ n, ∃ m, cP n = CallOutcome.tokenInvalid m)
    (hA0 : dA 0 = CallOutcome.tokenInvalid mA) (hA1 : dA 1 = CallOutcome.ok ())
    (hQ0 : dQ 0 = CallOutcome.tokenInvalid mQ) (hQ1 : dQ 1 = CallOutcome.ok rQ)
    (hL0 : dL 0 = CallOutcome.tokenInvalid mL) (hL1 : dL 1 = CallOutcome.ok rL)
    (hS0 : dS 0 = CallOutcome.tokenInvalid mS) (hS1 : dS 1 = CallOutcome.ok ())
    (hP0 : dP 0 = CallOutcome.tokenInvalid mP) (hP1 : dP 1 = CallOutcome.ok ())
    (hr : (refresh_connection cfg renv s).1 = true) :
    ((∃ m, (add_links_with_retry cfg package cA renv s 0 1).1 = OpOutcome.opError m) ∧
      (add_links_with_retry cfg package cA renv s 0 1).2.2 ≤ 2) ∧
    ((∃ m, (query_packages_with_retry cfg cQ renv s 0 1).1 = OpOutcome.opError m) ∧
      (query_packages_with_retry cfg cQ renv s 0 1).2.2 ≤ 2) ∧
    ((∃ m, (query_linkgrabber_with_retry cfg cL renv s 0 1).1 = OpOutcome.opError m) ∧
      (query_linkgrabber_with_retry cfg cL renv s 0 1).2.2 ≤ 2) ∧
    ((∃ m, (start_downloads_with_retry cfg none cS renv s 0 1).1 = OpOutcome.opError m) ∧
      (start_downloads_with_retry cfg none cS renv s 0 1).2.2 ≤ 2) ∧
    ((∃ m, (pause_downloads_with_retry cfg none cP renv s 0 1).1 = OpOutcome.opError m) ∧
      (pause_downloads_with_retry cfg none cP renv s 0 1).2.2 ≤ 2) ∧
    add_links_with_retry cfg package dA renv s 0 1
      = (OpOutcome.ok (), (refresh_connection cfg renv s).2.1, 2) ∧
    query_packages_with_retry cfg dQ renv s 0 1
      = (OpOutcome.ok rQ, (refresh_connection cfg renv s).2.1, 2) ∧
    query_linkgrabber_with_retry cfg dL renv s 0 1
      = (OpOutcome.ok rL, (refresh_connection cfg renv s).2.1, 2) ∧
    start_downloads_with_retry cfg none dS renv s 0 1
      = (OpOutcome.ok (), (refresh_connection cfg renv s).2.1, 2) ∧
    pause_downloads_with_retry cfg none dP renv s 0 1
      = (OpOutcome.ok (), (refresh_connection cfg renv s).2.1, 2) :=
  ⟨add_links_retry_all_invalid cfg package cA renv s hA,
   query_packages_retry_all_invalid cfg cQ renv s hQ,
   query_linkgrabber_retry_all_invalid cfg cL renv s hL,
   start_retry_all_invalid cfg cS renv s hS,
   pause_retry_all_invalid cfg cP renv s hP,
   add_links_retry_recovers cfg package dA renv s mA () hA0 hA1 hr,
   query_packages_retry_recovers cfg dQ renv s mQ rQ hQ0 hQ1 hr,
   query_linkgrabber_retry_recovers cfg dL renv s mL rL hL0 hL1 hr,
   start_retry_recovers cfg dS renv s mS () hS0 hS1 hr,
   pause_retry_recovers cfg dP renv s mP () hP0 hP1 hr⟩

/-- Witness for C1 at a concrete environment: an always-token-invalid call
makes at most two invocations; a token-invalid-then-ok call returns the
success transparently. -/
theorem retry_executor_bound_and_transparency_witness :
    (add_links_with_retry cfg0 pkg0 (fun _ => CallOutcome.tokenInvalid "token expired")
        RefreshBehavior.reconnectOk s1 0 1).2.2 ≤ 2 ∧
    add_links_with_retry cfg0 pkg0
        (fun n => match n with
          | 0 => CallOutcome.tokenInvalid "token expired"
          | _ + 1 => CallOutcome.ok ())
        RefreshBehavior.reconnectOk s1 0 1
      = (OpOutcome.ok (), s1, 2) ∧
    query_packages_with_retry cfg0
        (fun n => match n with
          | 0 => CallOutcome.tokenInvalid "token expired"
          | _ + 1 => CallOutcome.ok ([] : List RawPackage))
        RefreshBehavior.reconnectOk s1 0 1
      = (OpOutcome.ok [], s1, 2) := by
  have h := retry_executor_bound_and_transparency cfg0 pkg0 RefreshBehavior.reconnectOk s1
    (fun _ => CallOutcome.tokenInvalid "token expired")
    (fun _ => CallOutcome.tokenInvalid "token expired")
    (fun _ => CallOutcome.tokenInvalid "token expired")
    (fun n => match n with
      | 0 => CallOutcome.tokenInvalid "token expired"
      | _ + 1 => CallOutcome.ok ())
    (fun n => match n with
      | 0 => CallOutcome.tokenInvalid "token expired"
      | _ + 1 => CallOutcome.ok ())
    (fun n => match n with
      | 0 => CallOutcome.tokenInvalid "token expired"
      | _ + 1 => CallOutcome.ok ())
    (fun _ => CallOutcome.tokenInvalid "token expired")
    (fun _ => CallOutcome.tokenInvalid "token expired")
    (fun n => match n with
      | 0 => CallOutcome.tokenInvalid "token expired"
      | _ + 1 => CallOutcome.ok ([] : List RawPackage))
    (fun n => match n with
      | 0 => CallOutcome.tokenInvalid "token expired"
      | _ + 1 => CallOutcome.ok ([] : List RawPackage))
    "token expired" "token expired" "token expired" "token expired" "token expired"
    [] []
    (fun n => ⟨"token expired", rfl⟩) (fun n => ⟨"token expired", rfl⟩)
    (fun n => ⟨"token expired", rfl⟩) (fun n => ⟨"token expired", rfl⟩)
    (fun n => ⟨"token expired", rfl⟩)
    rfl rfl rfl rfl rfl rfl rfl rfl rfl rfl rfl
  exact ⟨h.1.2, h.2.2.2.2.2.1, h.2.2.2.2.2.2.1⟩

/-- C2 counterexample: on an already-connected client (`is_connected` true),
`connect()` still performs an underlying authentication attempt (the method
never consults `is_connected`), so the claimed no-op idempotence fails. -/
theorem connect_when_connected_reauthenticates :
    is_connected s1 = true ∧
    (connect cfg0 (ConnectBehavior.found 0) s1).2.2 = 1 ∧
    (connect cfg0 (ConnectBehavior.found 0) s1).1 = ConnectResult.ok :=
  ⟨rfl, rfl, rfl⟩

/-- C2 amended: `connect()` always re-authenticates — it performs exactly one
underlying `jd.connect` attempt on every call, connected or not; the no-op
behaviour for already-connected clients exists only at guarded call sites. -/
theorem connect_always_reauthenticates (cfg : Config) (env : ConnectBehavior)
    (s : ClientState) : (connect cfg env s).2.2 = 1 := by
  cases env <;> rfl

/-- C3 counterexample: when the underlying transport disconnect raises, the
exception is swallowed but the session is NOT cleared — `is_connected` still
returns true afterwards, refuting the "clears the session regardless" part. -/
theorem disconnect_transport_failure_keeps_session :
    (disconnect (some "transport down") s1).2 = false ∧
    is_connected (disconnect (some "transport down") s1).1 = true :=
  ⟨rfl, rfl⟩

/-- C3 amended: `disconnect()` never raises; when the underlying transport
disconnect succeeds it clears the session (`is_connected` false afterwards),
but when the transport disconnect raises, the state is left unchanged (the
flag assignment sits after the raising call inside the `try` block). -/
theorem disconnect_never_raises_clears_only_on_success (s : ClientState) :
    (∀ env, (disconnect env s).2 = false) ∧
    is_connected (disconnect none s).1 = false ∧
    (∀ m, disconnect (some m) s = (s, false)) := by
  refine ⟨fun env => ?_, rfl, fun m => rfl⟩
  cases env <;> rfl

/-- C4 counterexample: a connected client, valid links, allowed category and
a succeeding remote call, but an empty name — `add_download_package` submits
the package anyway (one device invocation) and reports success, instead of
returning a soft failure. -/
theorem add_empty_name_submits :
    (add_download_package cfg0 (ConnectBehavior.found 0) (fun _ => CallOutcome.ok ())
        RefreshBehavior.reconnectOk s1 "" ["http://example.com/a"] "movie" true).1
      = Except.ok { success := true, message := "Package '' added successfully" } ∧
    (add_download_package cfg0 (ConnectBehavior.found 0) (fun _ => CallOutcome.ok ())
        RefreshBehavior.reconnectOk s1 "" ["http://example.com/a"] "movie" true).2.2 = 1 :=
  ⟨rfl, rfl⟩

/-- C4 amended: `add_download_package` performs no name validation — with a
connected client, non-empty links, allowed category and a succeeding remote
call it submits and returns success for every name, the empty name included;
the empty-name check exists only in `DownloadRequest.validate` (used by the
HTTP layer), which rejects an empty name. -/
theorem add_download_package_ignores_name (cfg : Config) (cenv : ConnectBehavior)
    (call : Nat → CallOutcome Unit) (renv : RefreshBehavior) (s : ClientState)
    (name : String) (links : List String) (category : String) (auto_start : Bool)
    (hconn : is_connected s = true) (hlinks : links ≠ [])
    (hcat : category ∈ cfg.allowed_categories) (hcall : call 0 = CallOutcome.ok ()) :
    add_download_package cfg cenv call renv s name links category auto_start
      = (Except.ok { success := true
                   , message := "Package '" ++ name ++ "' added successfully" }, s, 1) ∧
    DownloadRequest.validate
      { name := "", links := links, category := category, auto_start := auto_start }
      cfg.allowed_categories = false := by
  constructor
  · cases links with
    | nil => exact absurd rfl hlinks
    | cons a as =>
        simp [add_download_package, hconn, hcat, add_links_with_retry, hcall]
  · rfl

/-- Witness for C4 amended, at the empty name. -/
theorem add_download_package_ignores_name_witness :
    add_download_package cfg0 (ConnectBehavior.found 0) (fun _ => CallOutcome.ok ())
        RefreshBehavior.reconnectOk s1 "" ["http://example.com/a"] "movie" true
      = (Except.ok { success := true, message := "Package '' added successfully" }, s1, 1) ∧
    DownloadRequest.validate
      { name := "", links := ["http://example.com/a"], category := "movie", auto_start := true }
      cfg0.allowed_categories = false := by
  have h := add_download_package_ignores_name cfg0 (ConnectBehavior.found 0)
    (fun _ => CallOutcome.ok ()) RefreshBehavior.reconnectOk s1 "" ["http://example.com/a"]
    "movie" true rfl (by decide) (by decide) rfl
  exact h

/-- C5: on a connected client, empty links give the soft failure
"No download links provided" and a disallowed category gives the soft
failure "Invalid category", in both cases with no exception and no remote
submission (zero device invocations, state unchanged). -/
theorem add_download_package_validation (cfg : Config) (cenv : ConnectBehavior)
    (call : Nat → CallOutcome Unit) (renv : RefreshBehavior) (s : ClientState)
    (name : String) (links : List String) (category : String) (auto_start : Bool)
    (hconn : is_connected s = true) :
    add_download_package cfg cenv call renv s name [] category auto_start
      = (Except.ok { success := false, message := "No download links provided" }, s, 0) ∧
    (links ≠ [] → category ∉ cfg.allowed_categories →
      add_download_package cfg cenv call renv s name links category auto_start
        = (Except.ok { success := false, message := "Invalid category" }, s, 0)) := by
  constructor
  · simp [add_download_package, hconn]
  · intro hlinks hcat
    cases links with
    | nil => exact absurd rfl hlinks
    | cons a as => simp [add_download_package, hconn, hcat]

/-- Witness for C5 at the spec's example: category "horror" against allowed
categories tv_show and movie, and an empty link list. -/
theorem add_download_package_validation_witness :
    add_download_package cfg0 (ConnectBehavior.found 0) (fun _ => CallOutcome.ok ())
        RefreshBehavior.reconnectOk s1 "My show" [] "tv_show" true
      = (Except.ok { success := false, message := "No download links provided" }, s1, 0) ∧
    add_download_package cfg0 (ConnectBehavior.found 0) (fun _ => CallOutcome.ok ())
        RefreshBehavior.reconnectOk s1 "My show" ["http://example.com/a"] "horror" true
      = (Except.ok { success := false, message := "Invalid category" }, s1, 0) := by
  have h := add_download_package_validation cfg0 (ConnectBehavior.found 0)
    (fun _ => CallOutcome.ok ()) RefreshBehavior.reconnectOk s1 "My show"
    ["http://example.com/a"] "horror" true rfl
  exact ⟨h.1, h.2 (by decide) (by decide)⟩

/-- C6: for every failing authentication behaviour (underlying connect or
device lookup fails), `connect()` on a disconnected client raises
`MyJDConnectionError` and `is_connected` remains false. -/
theorem connect_failure_raises_and_stays_disconnected (cfg : Config)
    (env : ConnectBehavior) (s : ClientState)
    (hd : is_connected s = false) (hf : env.fails = true) :
    (∃ m, (connect cfg env s).1 = ConnectResult.connError m) ∧
    is_connected (connect cfg env s).2.1 = false := by
  cases env with
  | connectRaises m => exact ⟨⟨_, rfl⟩, hd⟩
  | deviceRaises m => exact ⟨⟨_, rfl⟩, hd⟩
  | deviceNone => exact ⟨⟨_, rfl⟩, by simp [connect, is_connected]⟩
  | found d => simp [ConnectBehavior.fails] at hf

/-- Witness for C6: bad credentials on a disconnected client. -/
theorem connect_failure_witness :
    (∃ m, (connect cfg0 (ConnectBehavior.connectRaises "bad credentials") s0).1
        = ConnectResult.connError m) ∧
    is_connected (connect cfg0 (ConnectBehavior.connectRaises "bad credentials") s0).2.1
      = false :=
  connect_failure_raises_and_stays_disconnected cfg0
    (ConnectBehavior.connectRaises "bad credentials") s0 rfl rfl

/-- C7: `progress_percentage` is `bytes_loaded/bytes_total*100` for nonzero
totals and `0` for a zero total (no division fault); the raw record
bytesTotal 1000, bytesLoaded 250, status "downloading" flows through
`get_download_packages` to a package with progress 25, downloading, not
completed; a zero-total record yields progress 0. -/
theorem download_package_progress (p : DownloadPackage) :
    (p.bytes_total = 0 → p.progress_percentage = 0) ∧
    (p.bytes_total ≠ 0 →
      p.progress_percentage = (p.bytes_loaded : ℚ) / (p.bytes_total : ℚ) * 100) ∧
    (get_download_packages cfg0 (fun _ => CallOutcome.ok [raw1])
        RefreshBehavior.reconnectOk s1).1 = Except.ok [toDownloadPackage raw1] ∧
    (toDownloadPackage raw1).progress_percentage = 25 ∧
    (toDownloadPackage raw1).is_downloading = true ∧
    (toDownloadPackage raw1).is_completed = false ∧
    (get_download_packages cfg0 (fun _ => CallOutcome.ok [raw0])
        RefreshBehavior.reconnectOk s1).1 = Except.ok [toDownloadPackage raw0] ∧
    (toDownloadPackage raw0).progress_percentage = 0 := by
  refine ⟨fun h => by simp [DownloadPackage.progress_percentage, h],
          fun h => by simp [DownloadPackage.progress_percentage, h],
          rfl, ?_, rfl, rfl, rfl, ?_⟩
  · norm_num [toDownloadPackage, raw1, DownloadPackage.progress_percentage]
  · norm_num [toDownloadPackage, raw0, DownloadPackage.progress_percentage]

/-- Witness for C7 at the two concrete records. -/
theorem download_package_progress_witness :
    (toDownloadPackage raw0).progress_percentage = 0 ∧
    (toDownloadPackage raw1).progress_percentage
      = ((toDownloadPackage raw1).bytes_loaded : ℚ)
          / ((toDownloadPackage raw1).bytes_total : ℚ) * 100 :=
  ⟨(download_package_progress (toDownloadPackage raw0)).1 rfl,
   (download_package_progress (toDownloadPackage raw1)).2.1 (by decide)⟩

/-- C8: on a connected client, `start_downloads`/`pause_downloads` with a
non-empty package-id list return true with zero device invocations (the
intent is only logged); with absent or empty package_ids the device's
start-all/pause-all operation is invoked (at least one device call). -/
theorem selective_start_pause_logged_only (cfg : Config) (ids : List String)
    (call : Nat → CallOutcome Unit) (renv : RefreshBehavior) (s : ClientState)
    (hconn : is_connected s = true) (hids : ids ≠ []) :
    start_downloads cfg (some ids) call renv s = (Except.ok true, s, 0) ∧
    pause_downloads cfg (some ids) call renv s = (Except.ok true, s, 0) ∧
    1 ≤ (start_downloads cfg none call renv s).2.2 ∧
    1 ≤ (start_downloads cfg (some []) call renv s).2.2 ∧
    1 ≤ (pause_downloads cfg none call renv s).2.2 ∧
    1 ≤ (pause_downloads cfg (some []) call renv s).2.2 := by
  have hstart : ∀ ids', ids' = none ∨ ids' = some ([] : List String) →
      1 ≤ (start_downloads cfg ids' call renv s).2.2 := by
    intro ids' h'
    have hw := start_retry_calls_device cfg ids' call renv s h'
    rcases hrw : start_downloads_with_retry cfg ids' call renv s 0 1 with ⟨o, s', n⟩
    rw [hrw] at hw
    simp at hw
    cases o <;> simp [start_downloads, hconn, hrw] <;> omega
  have hpause : ∀ ids', ids' = none ∨ ids' = some ([] : List String) →
      1 ≤ (pause_downloads cfg ids' call renv s).2.2 := by
    intro ids' h'
    have hw := pause_retry_calls_device cfg ids' call renv s h'
    rcases hrw : pause_downloads_with_retry cfg ids' call renv s 0 1 with ⟨o, s', n⟩
    rw [hrw] at hw
    simp at hw
    cases o <;> simp [pause_downloads, hconn, hrw] <;> omega
  cases ids with
  | nil => exact absurd rfl hids
  | cons a as =>
    exact ⟨by simp [start_downloads, hconn, start_downloads_with_retry],
           by simp [pause_downloads, hconn, pause_downloads_with_retry],
           hstart none (Or.inl rfl), hstart (some []) (Or.inr rfl),
           hpause none (Or.inl rfl), hpause (some []) (Or.inr rfl)⟩

/-- Witness for C8 at a one-element package-id list. -/
theorem selective_start_pause_witness :
    start_downloads cfg0 (some ["pkg-1"]) (fun _ => CallOutcome.tokenInvalid "t")
        RefreshBehavior.reconnectOk s1 = (Except.ok true, s1, 0) ∧
    pause_downloads cfg0 (some ["pkg-1"]) (fun _ => CallOutcome.tokenInvalid "t")
        RefreshBehavior.reconnectOk s1 = (Except.ok true, s1, 0) ∧
    1 ≤ (start_downloads cfg0 none (fun _ => CallOutcome.tokenInvalid "t")
        RefreshBehavior.reconnectOk s1).2.2 := by
  have h := selective_start_pause_logged_only cfg0 ["pkg-1"]
    (fun _ => CallOutcome.tokenInvalid "t") RefreshBehavior.reconnectOk s1 rfl (by decide)
  exact ⟨h.1, h.2.1, h.2.2.1⟩

/-- C9: `DownloadStatus.from_string` is total and case-insensitive — every
string whose lower-casing is one of the six known keys maps to the matching
status, and every other string maps to `UNKNOWN`. -/
theorem from_string_total_case_insensitive (s : String) :
    (str_lower s = "downloading" →
      DownloadStatus.from_string s = DownloadStatus.DOWNLOADING) ∧
    (str_lower s = "finished" → DownloadStatus.from_string s = DownloadStatus.FINISHED) ∧
    (str_lower s = "failed" → DownloadStatus.from_string s = DownloadStatus.FAILED) ∧
    (str_lower s = "paused" → DownloadStatus.from_string s = DownloadStatus.PAUSED) ∧
    (str_lower s = "pending" → DownloadStatus.from_string s = DownloadStatus.PENDING) ∧
    (str_lower s = "extracting" →
      DownloadStatus.from_string s = DownloadStatus.EXTRACTING) ∧
    (str_lower s ∉ ["downloading", "finished", "failed", "paused", "pending", "extracting"] →
      DownloadStatus.from_string s = DownloadStatus.UNKNOWN) := by
  refine ⟨fun h => ?_, fun h => ?_, fun h => ?_, fun h => ?_, fun h => ?_, fun h => ?_,
          fun h => ?_⟩
  · simp only [DownloadStatus.from_string, h]; rfl
  · simp only [DownloadStatus.from_string, h]; rfl
  · simp only [DownloadStatus.from_string, h]; rfl
  · simp only [DownloadStatus.from_string, h]; rfl
  · simp only [DownloadStatus.from_string, h]; rfl
  · simp only [DownloadStatus.from_string, h]; rfl
  · simp only [List.mem_cons, List.not_mem_nil, or_false, not_or] at h
    obtain ⟨h1, h2, h3, h4, h5, h6⟩ := h
    have b1 : (str_lower s == "downloading") = false := beq_eq_false_iff_ne.mpr h1
    have b2 : (str_lower s == "finished") = false := beq_eq_false_iff_ne.mpr h2
    have b3 : (str_lower s == "failed") = false := beq_eq_false_iff_ne.mpr h3
    have b4 : (str_lower s == "paused") = false := beq_eq_false_iff_ne.mpr h4
    have b5 : (str_lower s == "pending") = false := beq_eq_false_iff_ne.mpr h5
    have b6 : (str_lower s == "extracting") = false := beq_eq_false_iff_ne.mpr h6
    simp [DownloadStatus.from_string, status_map, List.lookup, b1, b2, b3, b4, b5, b6]

/-- Witness for C9: a mixed-casing known status and an unknown one. -/
theorem from_string_witness :
    DownloadStatus.from_string "DownLOADing" = DownloadStatus.DOWNLOADING ∧
    DownloadStatus.from_string "queued" = DownloadStatus.UNKNOWN :=
  ⟨(from_string_total_case_insensitive "DownLOADing").1 (by decide),
   (from_string_total_case_insensitive "queued").2.2.2.2.2.2 (by decide)⟩

/-- C10: `connect()` writes the connected flag only on success — in the
three failing behaviours (where it raises `MyJDConnectionError`) the flag
keeps its previous value, and on success it is set to true. -/
theorem connect_never_clears_flag (cfg : Config) (s : ClientState) :
    (∀ m, ((connect cfg (ConnectBehavior.connectRaises m) s).2.1).connected
        = s.connected) ∧
    (∀ m, ((connect cfg (ConnectBehavior.deviceRaises m) s).2.1).connected
        = s.connected) ∧
    ((connect cfg ConnectBehavior.deviceNone s).2.1).connected = s.connected ∧
    (∀ d, (connect cfg (ConnectBehavior.found d) s).1 = ConnectResult.ok ∧
      ((connect cfg (ConnectBehavior.found d) s).2.1).connected = true) :=
  ⟨fun _ => rfl, fun _ => rfl, rfl, fun _ => ⟨rfl, rfl⟩⟩

end MyJDProxy
